import Mathlib

/-!
Verification of the natural-language specification of the repository
yaowenqiang/building_reusable_code_with_rust against its source.

The repository is a collection of small standalone Rust example files.
We shallowly embed the parts of the source the claims are about:

* a syntactic table of the source files (line counts, presence of a
  main function, thread spawning, runtime effect kinds, failure
  mechanisms), transcribed file by file from src/;
* a fine-grained well-formedness model for the three files the spec
  singles out (Add.rs, vehicle.rs, sized.rs);
* the mutex section of src/wrappers.rs as a fold over an arbitrary
  thread schedule;
* Cat::walk from src/unimplemented_macro.rs as a function into an
  explicit panic result;
* the code generator impl_hello_macro from
  src/hello_macro/hello_macro_derive/src/lib.rs;
* the largest functions from src/generic_demo.rs;
* Point::add from src/Add.rs with wrapping 32-bit arithmetic;
* the iterator pipeline of src/infinite.rs.
-/

namespace RustRepo

/-- Runtime effect kinds a file can perform.  Only the first two are
console effects; the rest are the external-effect kinds the spec says
never occur. -/
inductive Effect where
  | stdoutWrite
  | stderrWrite
  | fileRead
  | fileWrite
  | networkUse
  | persistedState
deriving DecidableEq, Repr

/-- An effect is a console effect when it only writes text to stdout
or stderr. -/
def Effect.isConsole : Effect → Bool
  | .stdoutWrite => true
  | .stderrWrite => true
  | _ => false

/-- Failure mechanisms appearing in the examples. -/
inductive FailMech where
  | viaUnwrap
  | viaPanic
  | viaUnimplemented
  | viaProcessExit
  | viaResultPropagation
deriving DecidableEq, Repr

/-- Whether a failure mechanism is one of unwrap, the panic macro, or
the unimplemented macro. -/
def FailMech.isBrevityPanic : FailMech → Bool
  | .viaUnwrap => true
  | .viaPanic => true
  | .viaUnimplemented => true
  | _ => false

/-- One source file of the repository: its name, total line count
(wc -l), count of code lines once comments and blank lines are
stripped, whether it defines a main function, whether it spawns
threads, the runtime effect kinds its code performs, and the failure
mechanisms it uses.  Transcribed from src/. -/
structure SrcFile where
  name : String
  lines : Nat
  codeLines : Nat
  hasMain : Bool
  spawnsThreads : Bool
  effects : List Effect
  failMechs : List FailMech
deriving Repr

/-- The table of all 34 source files of the repository, transcribed
from src/ (line counts by wc -l; code lines with comments and blank
lines removed; effects from the print and panic constructs each file
uses; no file opens files, sockets, or any persistent store). -/
def srcFiles : List SrcFile :=
  [ ⟨"Add.rs", 20, 17, false, false, [], []⟩
  , ⟨"Fn_FnMut_FnOnce.rs", 36, 10, true, false, [.stdoutWrite], []⟩
  , ⟨"From_Into.rs", 26, 15, true, false, [.stdoutWrite], []⟩
  , ⟨"IntoIterator.rs", 18, 15, true, false, [.stdoutWrite], []⟩
  , ⟨"associate_type.rs", 32, 16, true, false, [.stdoutWrite], []⟩
  , ⟨"associate_type_restriction.rs", 26, 17, true, false, [.stdoutWrite], []⟩
  , ⟨"cfg_macro.rs", 610, 385, true, false, [.stdoutWrite, .stderrWrite], [.viaPanic]⟩
  , ⟨"chaining.rs", 9, 7, true, false, [.stdoutWrite], []⟩
  , ⟨"copy.rs", 23, 15, true, false, [.stdoutWrite], []⟩
  , ⟨"default.rs", 17, 14, true, false, [.stdoutWrite], []⟩
  , ⟨"drop.rs", 16, 12, true, false, [.stdoutWrite], []⟩
  , ⟨"dynamic_dispatch.rs", 28, 22, true, false, [.stdoutWrite], []⟩
  , ⟨"env_macro.rs", 10, 6, true, false, [.stdoutWrite], []⟩
  , ⟨"format_macro.rs", 22, 16, true, false, [.stdoutWrite, .stderrWrite], []⟩
  , ⟨"generic_demo.rs", 72, 48, true, false, [.stdoutWrite], []⟩
  , ⟨"generic_implementation.rs", 33, 21, true, false, [.stdoutWrite], []⟩
  , ⟨"generic_struct.rs", 13, 11, true, false, [.stdoutWrite], []⟩
  , ⟨"generic_vec.rs", 26, 7, true, false, [.stdoutWrite], []⟩
  , ⟨"impl.rs", 31, 19, true, false, [.stdoutWrite], []⟩
  , ⟨"infinite.rs", 9, 8, true, false, [.stdoutWrite], []⟩
  , ⟨"iterator_adapters.rs", 22, 14, true, false, [.stdoutWrite], []⟩
  , ⟨"partialEq_implemented.rs", 28, 18, true, false, [.stdoutWrite], []⟩
  , ⟨"sized.rs", 10, 5, false, false, [], []⟩
  , ⟨"sized_and_trait_object.rs", 37, 27, true, false, [], []⟩
  , ⟨"static_dispatch_internal.rs", 39, 25, true, false, [.stdoutWrite], []⟩
  , ⟨"trait_object.rs", 9, 4, false, false, [], []⟩
  , ⟨"trait_objects.rs", 43, 27, true, false, [.stdoutWrite], []⟩
  , ⟨"unimplemented_macro.rs", 23, 18, true, false, [.stderrWrite], [.viaUnimplemented]⟩
  , ⟨"vec_macro.rs", 23, 19, false, false, [], []⟩
  , ⟨"vehicle.rs", 56, 48, false, false, [.stdoutWrite], []⟩
  , ⟨"wrappers.rs", 180, 122, true, true, [.stdoutWrite], [.viaUnwrap]⟩
  , ⟨"hello_macro/src/lib.rs", 26, 3, false, false, [], []⟩
  , ⟨"hello_macro/hello_macro_derive/src/lib.rs", 82, 20, false, false, [], [.viaUnwrap]⟩
  , ⟨"hello_world/src/main.rs", 33, 10, true, false, [.stdoutWrite], []⟩
  ]

/-- Total line count of a named file, looked up in the table. -/
def fileLines (n : String) : Option Nat :=
  (srcFiles.find? (fun f => f.name == n)).map (·.lines)

/-- Comment-stripped line count of a named file. -/
def fileCodeLines (n : String) : Option Nat :=
  (srcFiles.find? (fun f => f.name == n)).map (·.codeLines)

/-- Syntactic well-formedness data for one file, transcribed from the
source text: the names of its top-level fn items, the identifiers it
references that are defined nowhere (and not imported), the reserved
keywords it misuses as identifiers, whether it has unbalanced angle
brackets, and its crate-level attributes. -/
structure FileSyntax where
  topLevelFns : List String
  undefinedIdents : List String
  keywordMisuse : List String
  unbalancedBrackets : Bool
  crateAttrs : List String
deriving Repr

/-- A file is a well-formed standalone program when it has a top-level
main, no undefined identifiers, no keyword misuse, balanced brackets,
and does not opt out of having a main. -/
def wellFormedStandalone (f : FileSyntax) : Bool :=
  f.topLevelFns.contains "main"
    && f.undefinedIdents.isEmpty
    && f.keywordMisuse.isEmpty
    && !f.unbalancedBrackets
    && !(f.crateAttrs.contains "no_main")

/-- src/Add.rs: no top-level fn at all (add lives inside the trait and
the impl); the trait method signature references the undefined type
RHC, and the default type parameter is written as the keyword self. -/
def addRsSyntax : FileSyntax :=
  ⟨[], ["RHC"], ["self"], false, []⟩

/-- src/vehicle.rs: one top-level fn (from_amsterdam_to_pairs), no
main; the trait uses the reserved keyword move as a method name, the
default to_string body reads the undefined field self.name, and the
loop calls the undefined function location_of. -/
def vehicleRsSyntax : FileSyntax :=
  ⟨["from_amsterdam_to_pairs"], ["location_of", "name"], ["move"], false, []⟩

/-- src/sized.rs: declares the crate attribute no_main, defines no fn
at all, and both tuple structs NoOK and OK are missing a closing angle
bracket. -/
def sizedRsSyntax : FileSyntax :=
  ⟨[], [], [], true, ["no_main"]⟩

/-- Files that do not define a main function (the two library crates
of the proc-macro example, and five example files). -/
def filesWithoutMain : List String :=
  ["Add.rs", "sized.rs", "trait_object.rs", "vec_macro.rs", "vehicle.rs",
   "hello_macro/src/lib.rs", "hello_macro/hello_macro_derive/src/lib.rs"]

namespace Wrappers

/-- Number of threads spawned by the Mutex section of
src/wrappers.rs: the loop header is for i in 0..5. -/
def mutexThreadCount : Nat := 5

/-- What one spawned thread does to the shared counter once it holds
the lock: the body executes *num += 1. -/
def threadBody (c : Int) : Int := c + 1

/-- The final counter value when the spawned threads acquire the lock
in the order given by the schedule: each thread in the schedule runs
its body once on the shared counter, which starts at 0. -/
def mutexFinalCounter (schedule : List Nat) : Int :=
  schedule.foldl (fun c _ => threadBody c) 0

/-- The lines the Mutex section prints from inside the threads, one
pair per thread in schedule order: the thread index i and the counter
value the thread observes right after its own increment. -/
def mutexTrace (schedule : List Nat) : List (Nat × Int) :=
  (schedule.foldl
    (fun (acc : List (Nat × Int) × Int) i =>
      let v := threadBody acc.2
      (acc.1 ++ [(i, v)], v))
    ([], 0)).1

end Wrappers

namespace UnimplEx

/-- Outcome of running a piece of example code: either a value, or an
unconditional panic carrying the panic message. -/
inductive RunResult (α : Type) where
  | ok (a : α)
  | panicked (msg : String)
deriving DecidableEq, Repr

/-- The Cat struct of src/unimplemented_macro.rs, a unit struct. -/
structure Cat where
deriving DecidableEq, Repr

/-- Cat::walk from the Animal impl in src/unimplemented_macro.rs: its
body is exactly the unimplemented macro, which panics with the message
not implemented for every receiver. -/
def Cat.walk (_ : Cat) : RunResult Unit := .panicked "not implemented"

/-- Cat::make_noise: likewise just the unimplemented macro. -/
def Cat.make_noise (_ : Cat) : RunResult Unit := .panicked "not implemented"

/-- The main of src/unimplemented_macro.rs: builds a Cat and calls
cat.walk(). -/
def exampleMain : RunResult Unit := Cat.walk {}

end UnimplEx

namespace HelloDerive

/-- The part of the derive input that impl_hello_macro uses: the
identifier of the annotated type (ast.ident). -/
structure DeriveInput where
  ident : String
deriving DecidableEq, Repr

/-- The code generated by impl_hello_macro for one type: the trait
implemented, the function defined, and the single line that function
prints. -/
structure GeneratedImpl where
  traitName : String
  fnName : String
  printedLine : String
deriving DecidableEq, Repr

/-- impl_hello_macro from src/hello_macro/hello_macro_derive/src/lib.rs:
for the type named by ast.ident it emits an impl of HelloMacro whose
hello_macro function prints the greeting with the stringified type
name spliced in. -/
def implHelloFn (ast : DeriveInput) : GeneratedImpl :=
  { traitName := "HelloMacro"
  , fnName := "hello_macro"
  , printedLine := "Hello, Macro! I\x27m a " ++ ast.ident ++ "!" }

/-- The main of src/hello_world/src/main.rs: Cat derives HelloMacro,
and main calls Cat::hello_macro(), printing the generated line for the
identifier Cat. -/
def helloWorldOutput : String :=
  (implHelloFn ⟨"Cat"⟩).printedLine

end HelloDerive

namespace GenericDemo

/-- One step of the scan in the largest functions of
src/generic_demo.rs: the loop body is if item > largest then
largest = item, and item > largest is largest < item. -/
def maxStep {α : Type} [Preorder α] [DecidableRel (fun a b : α => a < b)]
    (acc item : α) : α :=
  if acc < item then item else acc

/-- The scan of the largest functions on a list known to be nonempty:
the accumulator starts at list[0] and the loop runs over the whole
list, including the head again. -/
def largestOf {α : Type} [Preorder α] [DecidableRel (fun a b : α => a < b)]
    (x : α) (xs : List α) : α :=
  (x :: xs).foldl maxStep x

/-- The generic largest function of src/generic_demo.rs.  On the empty
list the source indexes list[0] out of bounds and panics; we model
that as none. -/
def largest {α : Type} [Preorder α] [DecidableRel (fun a b : α => a < b)] :
    List α → Option α
  | [] => none
  | x :: xs => some (largestOf x xs)

/-- largest_i32_reference from src/generic_demo.rs: the same scan,
monomorphic over i32 slices. -/
def largest_i32_reference (list : List Int) : Option Int := largest list

/-- largest_i32_fixed_length from src/generic_demo.rs: the same scan
over a length-5 i32 array, modelled on the underlying element list. -/
def largest_i32_fixed_length (list : List Int) : Option Int := largest list

/-- largest_char from src/generic_demo.rs: the same scan over char
slices. -/
def largest_char (list : List Char) : Option Char := largest list

/-- A two-element type with the discrete partial order, in which the
two elements are incomparable.  It stands for a Rust type implementing
PartialOrd (and Copy) whose partial_cmp returns None on distinct
values. -/
inductive Flag where
  | fa
  | fb
deriving DecidableEq, Repr

instance : PartialOrder Flag where
  le x y := x = y
  le_refl _ := rfl
  le_trans := fun _ _ _ (h : _ = _) (h' : _ = _) => h.trans h'
  le_antisymm := fun _ _ h _ => h

instance : DecidableRel (fun a b : Flag => a ≤ b) := fun a b =>
  decidable_of_iff (a = b) ⟨fun h => h, fun h => h⟩

instance : DecidableRel (fun a b : Flag => a < b) := fun a b =>
  decidable_of_iff (a ≤ b ∧ ¬ b ≤ a) lt_iff_le_not_le.symm

end GenericDemo

namespace AddRs

/-- Reduction of an unbounded integer to the representable range of
i32, as two-complement wraparound. -/
def wrap32 (n : Int) : Int := ((n + 2 ^ 31) % 2 ^ 32) - 2 ^ 31

/-- i32 addition: wrapping addition on the 32-bit range. -/
def i32add (a b : Int) : Int := wrap32 (a + b)

/-- The Point struct of src/Add.rs, with two i32 fields. -/
structure Point where
  x : Int
  y : Int
deriving DecidableEq, Repr

/-- Point::add from the Add impl in src/Add.rs, transcribed field by
field: the x of the result is self.x + other.x, and the y of the
result is self.x + other.y (the source reads self.x, not self.y). -/
def Point.add (p other : Point) : Point :=
  { x := i32add p.x other.x
  , y := i32add p.x other.y }

end AddRs

namespace Infinite

/-- The unbounded range (k..) of src/infinite.rs as a stream: its n-th
element is k + n. -/
def rangeFrom (k : Int) : Nat → Int := fun n => k + n

/-- The map iterator adapter on streams: applies f to every element
lazily. -/
def mapIt (f : Int → Int) (it : Nat → Int) : Nat → Int := fun n => f (it n)

/-- The take adapter followed by collect: the first n elements of the
stream, as a list. -/
def takeCollect (n : Nat) (it : Nat → Int) : List Int :=
  (List.range n).map it

/-- The pipeline of src/infinite.rs:
(1..).map(x + 1).map(x * x).take(3).collect(). -/
def collected : List Int :=
  takeCollect 3 (mapIt (fun x => x * x) (mapIt (fun x => x + 1) (rangeFrom 1)))

end Infinite

end RustRepo

namespace RustRepo.Wrappers

theorem foldl_threadBody (l : List Nat) (a : Int) :
    l.foldl (fun c _ => threadBody c) a = a + l.length := by
  induction l generalizing a with
  | nil => simp
  | cons x xs ih =>
      rw [List.foldl_cons, ih]
      simp only [threadBody, List.length_cons]
      push_cast
      ring

theorem mutexTrace_go (l : List Nat) (acc : List (Nat × Int)) (c : Int) :
    ((l.foldl
      (fun (acc : List (Nat × Int) × Int) i =>
        let v := threadBody acc.2
        (acc.1 ++ [(i, v)], v))
      (acc, c)).1).map Prod.fst = acc.map Prod.fst ++ l := by
  induction l generalizing acc c with
  | nil => simp
  | cons x xs ih =>
      simp only [List.foldl_cons, ih, List.map_append, List.map_cons,
        List.map_nil, List.append_assoc, List.cons_append, List.nil_append]

theorem mutexTrace_fst (schedule : List Nat) :
    (mutexTrace schedule).map Prod.fst = schedule := by
  simpa using mutexTrace_go schedule [] 0

end RustRepo.Wrappers

/-- C3: the only code that spawns threads is src/wrappers.rs, and in
its Mutex section each of the 5 spawned threads increments the shared
counter exactly once and is joined, so whatever order the threads
acquire the lock in, the final counter value printed after all joins
is 5. -/
theorem C3_mutex_counter :
    (RustRepo.srcFiles.all
      (fun f => !f.spawnsThreads || f.name == "wrappers.rs")) = true
    ∧ ∀ schedule : List Nat,
        schedule.Perm (List.range RustRepo.Wrappers.mutexThreadCount) →
        RustRepo.Wrappers.mutexFinalCounter schedule = 5 := by
  refine ⟨rfl, ?_⟩
  intro schedule hperm
  have hlen : schedule.length = 5 := by
    simpa using hperm.length_eq
  simp [RustRepo.Wrappers.mutexFinalCounter,
    RustRepo.Wrappers.foldl_threadBody, hlen]

/-- C3 witness: the schedule that runs the threads in reverse spawn
order is a permutation of the five thread indices and yields 5. -/
theorem C3_mutex_counter_witness :
    ([4, 3, 2, 1, 0] : List Nat).Perm
      (List.range RustRepo.Wrappers.mutexThreadCount)
    ∧ RustRepo.Wrappers.mutexFinalCounter [4, 3, 2, 1, 0] = 5 :=
  ⟨by decide, C3_mutex_counter.2 [4, 3, 2, 1, 0] (by decide)⟩

/-- C4: failure in the examples happens only through unwrap, the panic
macro, or the unimplemented macro; in particular Cat::walk in
src/unimplemented_macro.rs panics unconditionally for every Cat value,
and so does the main of that example, which calls cat.walk(). -/
theorem C4_walk_panics :
    (RustRepo.srcFiles.all
      (fun f => f.failMechs.all RustRepo.FailMech.isBrevityPanic)) = true
    ∧ (∀ c : RustRepo.UnimplEx.Cat,
        RustRepo.UnimplEx.Cat.walk c =
          RustRepo.UnimplEx.RunResult.panicked "not implemented")
    ∧ RustRepo.UnimplEx.exampleMain =
        RustRepo.UnimplEx.RunResult.panicked "not implemented" := by
  exact ⟨rfl, fun _ => rfl, rfl⟩

/-- C5: for every type annotated with the HelloMacro derive, the
generated hello_macro function prints exactly the greeting line with
the stringified type identifier spliced in; at the identifier Cat this
is the line printed by src/hello_world/src/main.rs. -/
theorem C5_hello_line :
    (∀ ast : RustRepo.HelloDerive.DeriveInput,
      (RustRepo.HelloDerive.implHelloFn ast).printedLine =
        "Hello, Macro! I\x27m a " ++ ast.ident ++ "!")
    ∧ RustRepo.HelloDerive.helloWorldOutput = "Hello, Macro! I\x27m a Cat!" := by
  exact ⟨fun _ => rfl, rfl⟩

/-- C1: the claim says every file under src/ compiles independently as
a standalone program with a main function, and in particular that
Add.rs, vehicle.rs and sized.rs are well-formed standalone programs.
This is false: none of those three files defines a main, Add.rs
references the undefined type RHC, vehicle.rs uses the reserved
keyword move as a method name and calls the undefined location_of, and
sized.rs declares no_main and has unbalanced angle brackets. -/
theorem C1_counterexample :
    RustRepo.wellFormedStandalone RustRepo.addRsSyntax = false
    ∧ RustRepo.wellFormedStandalone RustRepo.vehicleRsSyntax = false
    ∧ RustRepo.wellFormedStandalone RustRepo.sizedRsSyntax = false := by
  refine ⟨rfl, rfl, rfl⟩

/-- C1 amended: every file under src/ defines a main function except
the two proc-macro library crates and the five example files Add.rs,
sized.rs, trait_object.rs, vec_macro.rs and vehicle.rs; in particular
Add.rs, vehicle.rs and sized.rs are not well-formed standalone
programs. -/
theorem C1_amended :
    (RustRepo.srcFiles.all
      (fun f => f.hasMain || RustRepo.filesWithoutMain.contains f.name)) = true
    ∧ RustRepo.wellFormedStandalone RustRepo.addRsSyntax = false
    ∧ RustRepo.wellFormedStandalone RustRepo.vehicleRsSyntax = false
    ∧ RustRepo.wellFormedStandalone RustRepo.sizedRsSyntax = false := by
  refine ⟨rfl, rfl, rfl, rfl⟩

/-- C2: the claim says no source file exceeds roughly 150 lines of
logic and each file is a 10 to 80 line illustration.  This is false:
src/cfg_macro.rs has 610 lines, of which 385 remain after stripping
every comment and blank line, and src/wrappers.rs has 180 lines with
122 lines of code. -/
theorem C2_counterexample :
    RustRepo.fileLines "cfg_macro.rs" = some 610
    ∧ RustRepo.fileCodeLines "cfg_macro.rs" = some 385
    ∧ RustRepo.fileLines "wrappers.rs" = some 180
    ∧ RustRepo.fileCodeLines "wrappers.rs" = some 122
    ∧ (decide ((385 : Nat) ≤ 150)) = false
    ∧ (decide ((180 : Nat) ≤ 80)) = false := by
  refine ⟨rfl, rfl, rfl, rfl, rfl, rfl⟩

/-- C2 amended: every source file other than cfg_macro.rs (610 lines,
385 of code) and wrappers.rs (180 lines, 122 of code) has at most 82
lines in total and at most 60 lines of code, so each of the other
files is a small illustration within the stated 10 to 80 line range
(three files are even shorter, at 9 lines). -/
theorem C2_amended :
    (RustRepo.srcFiles.all
      (fun f => f.name == "cfg_macro.rs" || f.name == "wrappers.rs"
        || (decide (f.lines ≤ 82) && decide (f.codeLines ≤ 60)))) = true
    ∧ RustRepo.fileLines "cfg_macro.rs" = some 610
    ∧ RustRepo.fileLines "wrappers.rs" = some 180 := by
  refine ⟨rfl, rfl, rfl⟩

namespace RustRepo.GenericDemo

theorem le_foldl_maxStep {α : Type} [LinearOrder α] (l : List α) (a : α) :
    a ≤ l.foldl maxStep a := by
  induction l generalizing a with
  | nil => simp
  | cons x xs ih =>
      rw [List.foldl_cons]
      refine le_trans ?_ (ih (maxStep a x))
      unfold maxStep
      split
      · exact le_of_lt (by assumption)
      · exact le_refl a

theorem foldl_maxStep_mem {α : Type} [LinearOrder α] (l : List α) (a : α) :
    l.foldl maxStep a = a ∨ l.foldl maxStep a ∈ l := by
  induction l generalizing a with
  | nil => simp
  | cons x xs ih =>
      rw [List.foldl_cons]
      rcases ih (maxStep a x) with h | h
      · rw [h]
        unfold maxStep
        by_cases hax : a < x
        · right
          simp [hax]
        · left
          simp [hax]
      · right
        exact List.mem_cons_of_mem x h

theorem mem_le_foldl_maxStep {α : Type} [LinearOrder α] (l : List α) (a y : α)
    (hy : y ∈ l) : y ≤ l.foldl maxStep a := by
  induction l generalizing a with
  | nil => cases hy
  | cons x xs ih =>
      rw [List.foldl_cons]
      rcases List.mem_cons.mp hy with rfl | h
      · refine le_trans ?_ (le_foldl_maxStep xs (maxStep a y))
        unfold maxStep
        by_cases hay : a < y
        · simp [hay]
        · simp only [if_neg hay]
          exact le_of_not_lt hay
      · exact ih (maxStep a x) h

theorem largestOf_mem {α : Type} [LinearOrder α] (x : α) (xs : List α) :
    largestOf x xs ∈ x :: xs := by
  unfold largestOf
  rcases foldl_maxStep_mem (x :: xs) x with h | h
  · rw [h]
    exact List.mem_cons_self x xs
  · exact h

theorem largestOf_ge {α : Type} [LinearOrder α] (x : α) (xs : List α) :
    ∀ y ∈ x :: xs, y ≤ largestOf x xs := by
  intro y hy
  unfold largestOf
  exact mem_le_foldl_maxStep (x :: xs) x y hy

end RustRepo.GenericDemo

/-- C6: the claim says every example is deterministic, with two runs
under the same compile-time configuration producing identical console
output.  This is false for src/wrappers.rs: the Mutex section prints
one line from inside each spawned thread, and two valid schedules of
the five threads (both permutations of the spawn order) already
produce different line sequences. -/
theorem C6_counterexample :
    ([0, 1, 2, 3, 4] : List Nat).Perm
      (List.range RustRepo.Wrappers.mutexThreadCount)
    ∧ ([1, 0, 2, 3, 4] : List Nat).Perm
      (List.range RustRepo.Wrappers.mutexThreadCount)
    ∧ (decide (RustRepo.Wrappers.mutexTrace [0, 1, 2, 3, 4] =
        RustRepo.Wrappers.mutexTrace [1, 0, 2, 3, 4])) = false := by
  refine ⟨by decide, by decide, by decide⟩

/-- C6 amended: the schedule-dependent part of the repository is
exactly the thread output of src/wrappers.rs; across any two schedules
of its Mutex section the final counter value printed after all joins
is the same, and the same five thread indices appear in the per-thread
lines, but the order and pairing of those lines (and hence the exact
console output) may differ between two runs. -/
theorem C6_amended :
    ∀ s s' : List Nat,
      s.Perm (List.range RustRepo.Wrappers.mutexThreadCount) →
      s'.Perm (List.range RustRepo.Wrappers.mutexThreadCount) →
      RustRepo.Wrappers.mutexFinalCounter s =
        RustRepo.Wrappers.mutexFinalCounter s'
      ∧ ((RustRepo.Wrappers.mutexTrace s).map Prod.fst).Perm
          ((RustRepo.Wrappers.mutexTrace s').map Prod.fst) := by
  intro s s' hs hs'
  constructor
  · have h1 : s.length = 5 := by simpa using hs.length_eq
    have h2 : s'.length = 5 := by simpa using hs'.length_eq
    simp [RustRepo.Wrappers.mutexFinalCounter,
      RustRepo.Wrappers.foldl_threadBody, h1, h2]
  · rw [RustRepo.Wrappers.mutexTrace_fst, RustRepo.Wrappers.mutexTrace_fst]
    exact hs.trans hs'.symm

/-- C6 witness: two concrete schedules, both permutations of the five
thread indices, agree on the final counter and on the multiset of
thread indices printed. -/
theorem C6_amended_witness :
    ([2, 0, 1, 3, 4] : List Nat).Perm
      (List.range RustRepo.Wrappers.mutexThreadCount)
    ∧ ([0, 1, 2, 3, 4] : List Nat).Perm
      (List.range RustRepo.Wrappers.mutexThreadCount)
    ∧ (RustRepo.Wrappers.mutexFinalCounter [2, 0, 1, 3, 4] =
        RustRepo.Wrappers.mutexFinalCounter [0, 1, 2, 3, 4]
      ∧ ((RustRepo.Wrappers.mutexTrace [2, 0, 1, 3, 4]).map Prod.fst).Perm
          ((RustRepo.Wrappers.mutexTrace [0, 1, 2, 3, 4]).map Prod.fst)) :=
  ⟨by decide, by decide,
    C6_amended [2, 0, 1, 3, 4] [0, 1, 2, 3, 4] (by decide) (by decide)⟩

/-- C7: no example performs any external effect other than writing
text to the console: across the whole file table, every runtime effect
any file performs is a write to stdout or stderr, and no file reads or
writes files, uses the network, or touches persisted state. -/
theorem C7_console_only :
    (RustRepo.srcFiles.all
      (fun f => f.effects.all RustRepo.Effect.isConsole)) = true := by
  rfl

/-- C8: the claim says that for every type with PartialOrd and Copy,
largest on a nonempty list returns an element greater than or equal to
every element of the list.  This is false for a partial order with
incomparable elements: on the discrete two-element order, largest of
the list [fa, fb] returns fa, yet fb is neither less than nor equal to
fa, so the result is not greater than or equal to every element. -/
theorem C8_counterexample :
    RustRepo.GenericDemo.largest
      [RustRepo.GenericDemo.Flag.fa, RustRepo.GenericDemo.Flag.fb] =
      some RustRepo.GenericDemo.Flag.fa
    ∧ (decide (RustRepo.GenericDemo.Flag.fb ≤ RustRepo.GenericDemo.Flag.fa))
        = false
    ∧ (decide (RustRepo.GenericDemo.Flag.fa < RustRepo.GenericDemo.Flag.fb))
        = false
    ∧ (decide (RustRepo.GenericDemo.Flag.fa = RustRepo.GenericDemo.Flag.fb))
        = false := by
  refine ⟨by decide, by decide, by decide, by decide⟩

/-- C8 amended: for every type whose order is total, as it is for the
i32 and char instantiations used in src/generic_demo.rs, largest on a
nonempty list returns an element of the list that is greater than or
equal to every element of the list; nonemptiness is required because
each function begins by indexing list[0].  For a general PartialOrd
the returned value is still an element of the list, but need not be
greater than or equal to elements it is incomparable with. -/
theorem C8_amended {α : Type} [LinearOrder α] (x : α) (xs : List α) :
    RustRepo.GenericDemo.largest (x :: xs) =
      some (RustRepo.GenericDemo.largestOf x xs)
    ∧ RustRepo.GenericDemo.largestOf x xs ∈ x :: xs
    ∧ ∀ y ∈ x :: xs, y ≤ RustRepo.GenericDemo.largestOf x xs :=
  ⟨rfl, RustRepo.GenericDemo.largestOf_mem x xs,
    RustRepo.GenericDemo.largestOf_ge x xs⟩

/-- C8 witness: on the number list of src/generic_demo.rs the scan
returns 100, an element of the list that dominates every element. -/
theorem C8_amended_witness :
    RustRepo.GenericDemo.largest ((34 : Int) :: [50, 25, 100, 65]) =
      some (RustRepo.GenericDemo.largestOf (34 : Int) [50, 25, 100, 65])
    ∧ RustRepo.GenericDemo.largestOf (34 : Int) [50, 25, 100, 65] ∈
        (34 : Int) :: [50, 25, 100, 65]
    ∧ ∀ y ∈ (34 : Int) :: [50, 25, 100, 65],
        y ≤ RustRepo.GenericDemo.largestOf (34 : Int) [50, 25, 100, 65] :=
  C8_amended 34 [50, 25, 100, 65]

/-- C9: for all Points p and q, p.add(q) returns the Point whose x is
p.x + q.x and whose y is p.x + q.y: the y of the result is computed
from self.x, not self.y, so it does not depend on p.y, and Point
addition is not componentwise (at p = (0, 1), q = (0, 0) the result
has y = 0 while componentwise addition of the y fields gives 1). -/
theorem C9_add_not_componentwise :
    (∀ p q : RustRepo.AddRs.Point,
      RustRepo.AddRs.Point.add p q =
        { x := RustRepo.AddRs.i32add p.x q.x
        , y := RustRepo.AddRs.i32add p.x q.y })
    ∧ (∀ px py py' qx qy : Int,
        (RustRepo.AddRs.Point.add ⟨px, py⟩ ⟨qx, qy⟩).y =
          (RustRepo.AddRs.Point.add ⟨px, py'⟩ ⟨qx, qy⟩).y)
    ∧ (RustRepo.AddRs.Point.add ⟨0, 1⟩ ⟨0, 0⟩).y = 0
    ∧ RustRepo.AddRs.i32add 1 0 = 1 := by
  refine ⟨fun p q => rfl, fun px py py' qx qy => rfl, by decide, by decide⟩

/-- C10: the iterator pipeline of src/infinite.rs terminates with a
finite collected vector despite the unbounded source range, and that
vector is exactly [4, 9, 16], of length 3. -/
theorem C10_collected :
    RustRepo.Infinite.collected = [4, 9, 16]
    ∧ RustRepo.Infinite.collected.length = 3 := by
  refine ⟨by decide, by decide⟩
